import Mathlib

/-!
# Traffic Ops regex handlers

A shallow embedding of `api/regex.go`, the five CRUD handlers of the `regex`
resource.

The handlers talk to three collaborators that are not part of the repository:
`encoding/json` (`json.Unmarshal`), the clock (`time.Now`) and the datastore
behind `sqlx`.  Each of them is a parameter of the embedding, so every theorem
about a handler holds for all decoders, all clock readings and all datastores.
The handlers are state passing functions on a `World`, which carries the
datastore state together with a record of every `sqlx` call made, of every
statement that reached the datastore and of every line given to `log.Println`.
-/

namespace TrafficControl

/-! ## Data model of `api/regex.go` -/

/-- A `time.Time`; `0` stands for the zero value `time.Time{}`. -/
abbrev Time := Int

/-- A Go `error` value, identified with its message. -/
abbrev Err := String

/-- The conversion `int64(id)`: the value wrapped into the signed 64-bit range.
On a Go `int`, which never exceeds 64 bits, it is the identity. -/
def int64 (n : Int) : Int := (n + 2 ^ 63) % 2 ^ 64 - 2 ^ 63

/-- The record `type Regex struct` of `regex.go`, lines 28-33. The field `Type`
is spelled `Type_` because `Type` is reserved. -/
structure Regex where
  Id : Int
  Pattern : String
  Type_ : Int
  LastUpdated : Time
  deriving DecidableEq, Repr

/-- The zero value of `Regex`, as produced by `var v Regex` and by `Regex{}`. -/
def Regex.zero : Regex := { Id := 0, Pattern := "", Type_ := 0, LastUpdated := 0 }

/-- A value bound to a statement parameter. -/
inductive Value where
  | int (n : Int)
  | text (s : String)
  | time (t : Time)
  deriving DecidableEq, Repr

/-- The `db:"..."` tags of `Regex`: the column name each field is bound under. -/
def Regex.column (v : Regex) (name : String) : Option Value :=
  if name = "id" then some (Value.int v.Id)
  else if name = "pattern" then some (Value.text v.Pattern)
  else if name = "type" then some (Value.int v.Type_)
  else if name = "last_updated" then some (Value.time v.LastUpdated)
  else none

/-- The `sql.Result` of an executed statement. -/
structure Result where
  LastInsertId : Int
  RowsAffected : Int
  deriving DecidableEq, Repr

/-! ## The `sqlx` layer: named parameters -/

/-- Characters allowed in a named parameter (letters, digits, `_` and `.`). -/
def isBindRune (c : Char) : Bool := c.isAlphanum || c == '_' || c == '.'

/-- The scan of a named query for its `:name` parameters, in order of occurrence.
The second argument is the name being read, if any. A doubled colon is an escaped
colon; a colon in the middle of a name is an error. -/
def scanNames : List Char → Option (List Char) → List String → Except Err (List String)
  | [], none, acc => .ok acc
  | [], some nm, acc => .ok (acc ++ [String.mk nm])
  | c :: cs, none, acc =>
    if c = ':' then scanNames cs (some []) acc else scanNames cs none acc
  | c :: cs, some nm, acc =>
    if c = ':' then
      (if nm = [] then scanNames cs none acc
       else .error "unexpected colon while reading named param")
    else if isBindRune c then scanNames cs (some (nm ++ [c])) acc
    else scanNames cs none (acc ++ [String.mk nm])

/-- The named parameters of a query text. -/
def namedParams (query : String) : Except Err (List String) :=
  scanNames query.data none []

/-- Binding of a list of parameter names against a record: each name is looked up
among the `db` tags; a name with no field is an error. -/
def bindArgs (arg : Regex) : List String → Except Err (List (String × Value))
  | [] => .ok []
  | n :: ns =>
    match arg.column n with
    | none => .error ("could not find name " ++ n)
    | some x =>
      match bindArgs arg ns with
      | .error e => .error e
      | .ok rest => .ok ((n, x) :: rest)

/-- The parameters a named query binds from a record. -/
def bindNamed (query : String) (arg : Regex) : Except Err (List (String × Value)) :=
  match namedParams query with
  | .error e => .error e
  | .ok names => bindArgs arg names

/-! ## The datastore and the world -/

/-- The datastore behind `sqlx`, over a state `σ`: preparing a statement,
running a query and executing a write. Each receives the statement text and the
parameters bound by name, and nothing else of the record they came from. -/
structure Datastore (σ : Type) where
  prepare : σ → String → σ × Option Err
  query : σ → String → List (String × Value) → σ × Except Err (List Regex)
  exec : σ → String → List (String × Value) → σ × Except Err Result

/-- A call of the `sqlx` interface made by a handler, with its arguments. -/
inductive Call where
  | PrepareNamed (query : String)
  | StmtSelect (query : String) (arg : Regex)
  | StmtClose (query : String)
  | Select (query : String)
  | NamedExec (query : String) (arg : Regex)
  deriving DecidableEq, Repr

/-- The kind of a request that reached the datastore. -/
inductive Op where
  | prepare
  | query
  | exec
  deriving DecidableEq, Repr

/-- A request as the datastore receives it: a statement text and bound values. -/
structure Sent where
  op : Op
  text : String
  params : List (String × Value)
  deriving DecidableEq, Repr

/-- The state a handler runs in: the datastore state, the `sqlx` calls made so
far, the requests that reached the datastore, and the lines logged. -/
structure World (σ : Type) where
  store : σ
  calls : List Call
  sent : List Sent
  logged : List Err

/-- A fresh world around a datastore state. -/
def World.init {σ : Type} (s : σ) : World σ :=
  { store := s, calls := [], sent := [], logged := [] }

/-- The call `log.Println(err)`. -/
def World.log {σ : Type} (w : World σ) (e : Err) : World σ :=
  { w with logged := w.logged ++ [e] }

/-- The handle `*sqlx.NamedStmt` returned by `PrepareNamed`. -/
structure NamedStmt where
  QueryString : String
  Params : List String
  deriving DecidableEq, Repr

/-- The call `db.NamedExec(query, arg)`: binds the named parameters of `query` from
`arg`, then executes the statement on the datastore. A binding error returns
before the datastore is reached. -/
def NamedExec {σ : Type} (D : Datastore σ) (w : World σ) (query : String) (arg : Regex) :
    Except Err Result × World σ :=
  let w1 := { w with calls := w.calls ++ [Call.NamedExec query arg] }
  match bindNamed query arg with
  | .error e => (.error e, w1)
  | .ok ps =>
    ((D.exec w1.store query ps).2,
      { w1 with store := (D.exec w1.store query ps).1,
                sent := w1.sent ++ [{ op := Op.exec, text := query, params := ps }] })

/-- The call `db.Select(&ret, query)` with no arguments. -/
def Select {σ : Type} (D : Datastore σ) (w : World σ) (query : String) :
    Except Err (List Regex) × World σ :=
  let w1 := { w with calls := w.calls ++ [Call.Select query] }
  ((D.query w1.store query []).2,
    { w1 with store := (D.query w1.store query []).1,
              sent := w1.sent ++ [{ op := Op.query, text := query, params := [] }] })

/-- The call `db.PrepareNamed(query)`: compiles the named query, then prepares it
on the datastore; on either error the handle is nil. -/
def PrepareNamed {σ : Type} (D : Datastore σ) (w : World σ) (query : String) :
    Except Err NamedStmt × World σ :=
  let w1 := { w with calls := w.calls ++ [Call.PrepareNamed query] }
  match namedParams query with
  | .error e => (.error e, w1)
  | .ok names =>
    let w2 := { w1 with store := (D.prepare w1.store query).1,
                        sent := w1.sent ++ [{ op := Op.prepare, text := query, params := [] }] }
    match (D.prepare w1.store query).2 with
    | some e => (.error e, w2)
    | none => (.ok { QueryString := query, Params := names }, w2)

/-- The call `nstmt.Select(&ret, arg)` on a non-nil handle. -/
def NamedStmt.Select {σ : Type} (D : Datastore σ) (w : World σ) (n : NamedStmt) (arg : Regex) :
    Except Err (List Regex) × World σ :=
  let w1 := { w with calls := w.calls ++ [Call.StmtSelect n.QueryString arg] }
  match bindArgs arg n.Params with
  | .error e => (.error e, w1)
  | .ok ps =>
    ((D.query w1.store n.QueryString ps).2,
      { w1 with store := (D.query w1.store n.QueryString ps).1,
                sent := w1.sent ++ [{ op := Op.query, text := n.QueryString, params := ps }] })

/-- The call `nstmt.Close()`; its error is not looked at by the caller. -/
def NamedStmt.Close {σ : Type} (w : World σ) (n : NamedStmt) : World σ :=
  { w with calls := w.calls ++ [Call.StmtClose n.QueryString] }

/-! ## The handlers of `api/regex.go` -/

/-- The value a handler returns as `interface{}` when it is not nil. -/
inductive Reply where
  | rows (rs : List Regex)
  | result (r : Result)
  deriving DecidableEq, Repr

/-- How a handler call ends: it returns the pair `(interface{}, error)`, where
`none` is nil, or it panics. -/
inductive Outcome where
  | returned (result : Option Reply) (err : Option Err)
  | panicked
  deriving DecidableEq, Repr

/-- The decoder `json.Unmarshal(payload, &v)`: from the payload and the current
value of `v` to the new value of `v` and the error returned. -/
abbrev Unmarshal := String → Regex → Regex × Option Err

/-- The function `getRegexById` (lines 42-53). The error of `PrepareNamed` is
overwritten by the next assignment without being read; when the preparation failed
`nstmt` is nil and `nstmt.Select` dereferences it, which panics. -/
def getRegexById {σ : Type} (D : Datastore σ) (id : Int) (w : World σ) : Outcome × World σ :=
  let ret : List Regex := []
  let arg : Regex := { Regex.zero with Id := int64 id }
  let p := PrepareNamed D w "select * from regex where id=:id"
  match p.1 with
  | .error _ => (Outcome.panicked, p.2)
  | .ok nstmt =>
    let q := nstmt.Select D p.2 arg
    match q.1 with
    | .error err => (Outcome.returned none (some err), q.2.log err)
    | .ok rows => (Outcome.returned (some (Reply.rows (ret ++ rows))) none, nstmt.Close q.2)

/-- The function `getRegexs` (lines 61-70). -/
def getRegexs {σ : Type} (D : Datastore σ) (w : World σ) : Outcome × World σ :=
  let ret : List Regex := []
  let queryStr := "select * from regex"
  let q := Select D w queryStr
  match q.1 with
  | .error err => (Outcome.returned none (some err), q.2.log err)
  | .ok rows => (Outcome.returned (some (Reply.rows (ret ++ rows))) none, q.2)

/-- The statement text `postRegex` builds (lines 85-91). -/
def postRegexSQL : String :=
  "INSERT INTO regex(" ++ "pattern" ++ ",type" ++ ") VALUES (" ++ ":pattern" ++ ",:type" ++ ")"

/-- The function `postRegex` (lines 79-98). A decoding error is logged and the
function goes on to the insert with whatever `v` holds. -/
def postRegex {σ : Type} (J : Unmarshal) (D : Datastore σ) (payload : String) (w : World σ) :
    Outcome × World σ :=
  let u := J payload Regex.zero
  let v := u.1
  let w1 := match u.2 with
    | some err => w.log err
    | none => w
  let sqlString := postRegexSQL
  let x := NamedExec D w1 sqlString v
  match x.1 with
  | .error err => (Outcome.returned none (some err), x.2.log err)
  | .ok result => (Outcome.returned (some (Reply.result result)) none, x.2)

/-- The statement text `putRegex` builds (lines 117-121). -/
def putRegexSQL : String :=
  "UPDATE regex SET " ++ "pattern = :pattern" ++ ",type = :type" ++
    ",last_updated = :last_updated" ++ " WHERE id=:id"

/-- The function `putRegex` (lines 108-128); `now` is the reading of `time.Now()`. -/
def putRegex {σ : Type} (J : Unmarshal) (D : Datastore σ) (now : Time) (id : Int)
    (payload : String) (w : World σ) : Outcome × World σ :=
  let u := J payload Regex.zero
  let v := { u.1 with Id := int64 id }
  match u.2 with
  | some err => (Outcome.returned none (some err), w.log err)
  | none =>
    let v := { v with LastUpdated := now }
    let sqlString := putRegexSQL
    let x := NamedExec D w sqlString v
    match x.1 with
    | .error err => (Outcome.returned none (some err), x.2.log err)
    | .ok result => (Outcome.returned (some (Reply.result result)) none, x.2)

/-- The statement text of `delRegex` (line 139). -/
def delRegexSQL : String := "DELETE FROM regex WHERE id=:id"

/-- The function `delRegex` (lines 137-145). -/
def delRegex {σ : Type} (D : Datastore σ) (id : Int) (w : World σ) : Outcome × World σ :=
  let arg : Regex := { Regex.zero with Id := int64 id }
  let x := NamedExec D w delRegexSQL arg
  match x.1 with
  | .error err => (Outcome.returned none (some err), x.2.log err)
  | .ok result => (Outcome.returned (some (Reply.result result)) none, x.2)

/-! ## A reference datastore and a sample decoder

The theorems on the handlers hold for every datastore and every decoder. The two
definitions below give one concrete datastore and one concrete decoder, on which
the handlers can be run and on which the effect of a statement on the table can
be stated. -/

/-- The state of the reference datastore: the rows of table `regex` (columns id,
pattern, type, last_updated), the next generated id, and two optional faults: one
that makes every preparation fail, one that makes every query and every write
fail. -/
structure Store where
  rows : List Regex
  nextId : Int
  refuse : Option Err
  fail : Option Err
  deriving DecidableEq, Repr

/-- The integer bound under a name, if any. -/
def paramInt (ps : List (String × Value)) (name : String) : Option Int :=
  match ps.lookup name with
  | some (Value.int n) => some n
  | _ => none

/-- The string bound under a name, if any. -/
def paramText (ps : List (String × Value)) (name : String) : Option String :=
  match ps.lookup name with
  | some (Value.text s) => some s
  | _ => none

/-- The time bound under a name, if any. -/
def paramTime (ps : List (String × Value)) (name : String) : Option Time :=
  match ps.lookup name with
  | some (Value.time t) => some t
  | _ => none

/-- The number of rows of the table whose id is `i`. -/
def Store.matching (s : Store) (i : Int) : Int :=
  ((s.rows.filter (fun r => decide (r.Id = i))).length : Int)

/-- The effect of a write on the reference datastore: the three statements of
`regex.go` under their SQL meaning. An insert appends a row with a generated id
and the zero timestamp; an update rewrites pattern, type and last_updated of the
rows with the given id; a delete removes the rows with the given id. -/
def Store.exec (s : Store) (text : String) (ps : List (String × Value)) :
    Store × Except Err Result :=
  match s.fail with
  | some e => (s, .error e)
  | none =>
    if text = "INSERT INTO regex(pattern,type) VALUES (:pattern,:type)" then
      match paramText ps "pattern", paramInt ps "type" with
      | some p, some t =>
        ({ s with rows := s.rows ++ [{ Id := s.nextId, Pattern := p, Type_ := t, LastUpdated := 0 }],
                  nextId := s.nextId + 1 },
          .ok { LastInsertId := s.nextId, RowsAffected := 1 })
      | _, _ => (s, .error "missing parameter")
    else if text = "UPDATE regex SET pattern = :pattern,type = :type,last_updated = :last_updated WHERE id=:id" then
      match paramText ps "pattern", paramInt ps "type", paramTime ps "last_updated", paramInt ps "id" with
      | some p, some t, some u, some i =>
        ({ s with rows := s.rows.map (fun r =>
              if r.Id = i then { r with Pattern := p, Type_ := t, LastUpdated := u } else r) },
          .ok { LastInsertId := 0, RowsAffected := s.matching i })
      | _, _, _, _ => (s, .error "missing parameter")
    else if text = "DELETE FROM regex WHERE id=:id" then
      match paramInt ps "id" with
      | some i =>
        ({ s with rows := s.rows.filter (fun r => !decide (r.Id = i)) },
          .ok { LastInsertId := 0, RowsAffected := s.matching i })
      | none => (s, .error "missing parameter")
    else (s, .error "syntax error")

/-- The answer of the reference datastore to a query: the two select statements
of `regex.go` under their SQL meaning. -/
def Store.query (s : Store) (text : String) (ps : List (String × Value)) :
    Store × Except Err (List Regex) :=
  match s.fail with
  | some e => (s, .error e)
  | none =>
    if text = "select * from regex" then (s, .ok s.rows)
    else if text = "select * from regex where id=:id" then
      match paramInt ps "id" with
      | some i => (s, .ok (s.rows.filter (fun r => decide (r.Id = i))))
      | none => (s, .error "missing parameter")
    else (s, .error "syntax error")

/-- Preparation on the reference datastore fails exactly under the fault `refuse`. -/
def Store.prepare (s : Store) (_text : String) : Store × Option Err := (s, s.refuse)

/-- The reference datastore. -/
def refDB : Datastore Store :=
  { prepare := Store.prepare, query := Store.query, exec := Store.exec }

/-- A decoder for the examples. It agrees with `json.Unmarshal` on the payloads it
lists: a truncated document is a syntax error that leaves `v` untouched, and the
two complete documents fill the fields they name. Every other payload is answered
with an error; the decoder is only ever applied to the payloads listed. -/
def sampleUnmarshal : Unmarshal := fun payload v =>
  if payload = "\x7b" then (v, some "unexpected end of JSON input")
  else if payload = "\x7b\"id\":99,\"pattern\":\"a.*\",\"type\":2,\"lastUpdated\":\"2015-01-01T00:00:00Z\"\x7d" then
    ({ Id := 99, Pattern := "a.*", Type_ := 2, LastUpdated := 1420070400 }, none)
  else if payload = "\x7b\"pattern\":\"a.*\",\"type\":2\x7d" then
    ({ v with Pattern := "a.*", Type_ := 2 }, none)
  else (v, some "payload outside the examples")

/-! ## Examples of datastore states -/

/-- A store with two rows, used in the examples. -/
def sampleStore : Store :=
  { rows := [{ Id := 5, Pattern := "old", Type_ := 1, LastUpdated := 0 },
             { Id := 6, Pattern := "b", Type_ := 1, LastUpdated := 0 }],
    nextId := 7, refuse := none, fail := none }

/-- A store whose queries and writes fail. -/
def failingStore : Store := { sampleStore with fail := some "connection lost" }

/-- A store that refuses to prepare statements. -/
def refusingStore : Store := { sampleStore with refuse := some "connection refused" }

/-- The world of the examples. -/
def sampleWorld : World Store := World.init sampleStore

/-- The world around the failing store. -/
def failingWorld : World Store := World.init failingStore

/-! ## Shorthand for the runs of the handlers -/

/-- The outcome of a handler after a write: the result, or `(nil, err)`. -/
def afterExec (x : Except Err Result) : Outcome :=
  match x with
  | .error err => Outcome.returned none (some err)
  | .ok result => Outcome.returned (some (Reply.result result)) none

/-- The outcome of a handler after a read: the rows, or `(nil, err)`. -/
def afterQuery (x : Except Err (List Regex)) : Outcome :=
  match x with
  | .error err => Outcome.returned none (some err)
  | .ok rows => Outcome.returned (some (Reply.rows rows)) none

/-- The lines a failed datastore call adds to the log. -/
def errLines {α : Type} (x : Except Err α) : List Err :=
  match x with
  | .error err => [err]
  | .ok _ => []

/-- The lines a decoding error adds to the log. -/
def optLines (x : Option Err) : List Err :=
  match x with
  | some err => [err]
  | none => []

/-- The parameters of the insert. -/
def postParams (v : Regex) : List (String × Value) :=
  [("pattern", Value.text v.Pattern), ("type", Value.int v.Type_)]

/-- The parameters of the update. -/
def putParams (v : Regex) (now : Time) (id : Int) : List (String × Value) :=
  [("pattern", Value.text v.Pattern), ("type", Value.int v.Type_),
    ("last_updated", Value.time now), ("id", Value.int (int64 id))]

/-! ## The statement texts and their parameters -/

theorem postRegexSQL_text :
    postRegexSQL = "INSERT INTO regex(pattern,type) VALUES (:pattern,:type)" := by decide

theorem putRegexSQL_text :
    putRegexSQL =
      "UPDATE regex SET pattern = :pattern,type = :type,last_updated = :last_updated WHERE id=:id" := by
  decide

theorem delRegexSQL_text : delRegexSQL = "DELETE FROM regex WHERE id=:id" := rfl

theorem namedParams_postRegexSQL : namedParams postRegexSQL = .ok ["pattern", "type"] := rfl

theorem namedParams_putRegexSQL :
    namedParams putRegexSQL = .ok ["pattern", "type", "last_updated", "id"] := rfl

theorem namedParams_delRegexSQL : namedParams delRegexSQL = .ok ["id"] := rfl

theorem namedParams_selectById :
    namedParams "select * from regex where id=:id" = .ok ["id"] := rfl

theorem bindNamed_postRegexSQL (v : Regex) :
    bindNamed postRegexSQL v =
      .ok [("pattern", Value.text v.Pattern), ("type", Value.int v.Type_)] := by
  simp [bindNamed, namedParams_postRegexSQL, bindArgs, Regex.column]

theorem bindNamed_putRegexSQL (v : Regex) :
    bindNamed putRegexSQL v =
      .ok [("pattern", Value.text v.Pattern), ("type", Value.int v.Type_),
        ("last_updated", Value.time v.LastUpdated), ("id", Value.int v.Id)] := by
  simp [bindNamed, namedParams_putRegexSQL, bindArgs, Regex.column]

theorem bindNamed_delRegexSQL (v : Regex) :
    bindNamed delRegexSQL v = .ok [("id", Value.int v.Id)] := by
  simp [bindNamed, namedParams_delRegexSQL, bindArgs, Regex.column]

/-- What `NamedExec` does once the parameters are bound. -/
theorem NamedExec_bound {σ : Type} (D : Datastore σ) (w : World σ) (query : String) (arg : Regex)
    (ps : List (String × Value)) (h : bindNamed query arg = .ok ps) :
    NamedExec D w query arg =
      ((D.exec w.store query ps).2,
        { store := (D.exec w.store query ps).1,
          calls := w.calls ++ [Call.NamedExec query arg],
          sent := w.sent ++ [{ op := Op.exec, text := query, params := ps }],
          logged := w.logged }) := by
  simp [NamedExec, h]

/-! ## The handlers, step by step -/

/-- The run of `postRegex` on any payload, malformed or not. -/
theorem postRegex_run {σ : Type} (J : Unmarshal) (D : Datastore σ) (payload : String)
    (w : World σ) :
    postRegex J D payload w =
      (afterExec (D.exec w.store postRegexSQL (postParams (J payload Regex.zero).1)).2,
        { store := (D.exec w.store postRegexSQL (postParams (J payload Regex.zero).1)).1,
          calls := w.calls ++ [Call.NamedExec postRegexSQL (J payload Regex.zero).1],
          sent := w.sent ++ [{ op := Op.exec, text := postRegexSQL,
                               params := postParams (J payload Regex.zero).1 }],
          logged := w.logged ++ optLines (J payload Regex.zero).2 ++
            errLines (D.exec w.store postRegexSQL (postParams (J payload Regex.zero).1)).2 }) := by
  simp only [postRegex, postParams]
  cases hu : (J payload Regex.zero).2 <;>
    simp only [NamedExec_bound D _ _ _ _ (bindNamed_postRegexSQL _), World.log] <;>
    split <;> simp_all [afterExec, errLines, optLines]

/-- The run of `putRegex` on a payload that decodes without error. -/
theorem putRegex_run {σ : Type} (J : Unmarshal) (D : Datastore σ) (now : Time) (id : Int)
    (payload : String) (w : World σ) (v : Regex) (h : J payload Regex.zero = (v, none)) :
    putRegex J D now id payload w =
      (afterExec (D.exec w.store putRegexSQL (putParams v now id)).2,
        { store := (D.exec w.store putRegexSQL (putParams v now id)).1,
          calls := w.calls ++ [Call.NamedExec putRegexSQL
            { Id := int64 id, Pattern := v.Pattern, Type_ := v.Type_, LastUpdated := now }],
          sent := w.sent ++ [{ op := Op.exec, text := putRegexSQL,
                               params := putParams v now id }],
          logged := w.logged ++ errLines (D.exec w.store putRegexSQL (putParams v now id)).2 }) := by
  simp only [putRegex, h, putParams]
  rw [NamedExec_bound D w _ _ _ (bindNamed_putRegexSQL _)]
  split <;> simp_all [afterExec, errLines, World.log]

/-- The run of `putRegex` on a payload that fails to decode. -/
theorem putRegex_run_error {σ : Type} (J : Unmarshal) (D : Datastore σ) (now : Time) (id : Int)
    (payload : String) (w : World σ) (v : Regex) (e : Err)
    (h : J payload Regex.zero = (v, some e)) :
    putRegex J D now id payload w = (Outcome.returned none (some e), w.log e) := by
  simp [putRegex, h]

/-- The run of `delRegex`. -/
theorem delRegex_run {σ : Type} (D : Datastore σ) (id : Int) (w : World σ) :
    delRegex D id w =
      (afterExec (D.exec w.store delRegexSQL [("id", Value.int (int64 id))]).2,
        { store := (D.exec w.store delRegexSQL [("id", Value.int (int64 id))]).1,
          calls := w.calls ++ [Call.NamedExec delRegexSQL { Regex.zero with Id := int64 id }],
          sent := w.sent ++ [{ op := Op.exec, text := delRegexSQL,
                               params := [("id", Value.int (int64 id))] }],
          logged := w.logged ++
            errLines (D.exec w.store delRegexSQL [("id", Value.int (int64 id))]).2 }) := by
  simp only [delRegex]
  rw [NamedExec_bound D w _ _ _ (bindNamed_delRegexSQL _)]
  split <;> simp_all [afterExec, errLines, World.log]

/-- The run of `getRegexs`. -/
theorem getRegexs_run {σ : Type} (D : Datastore σ) (w : World σ) :
    getRegexs D w =
      (afterQuery (D.query w.store "select * from regex" []).2,
        { store := (D.query w.store "select * from regex" []).1,
          calls := w.calls ++ [Call.Select "select * from regex"],
          sent := w.sent ++ [{ op := Op.query, text := "select * from regex", params := [] }],
          logged := w.logged ++ errLines (D.query w.store "select * from regex" []).2 }) := by
  simp only [getRegexs, Select]
  split <;> simp_all [afterQuery, errLines, World.log]

/-- The run of `getRegexById` when the preparation succeeds. -/
theorem getRegexById_run {σ : Type} (D : Datastore σ) (id : Int) (w : World σ)
    (h : (D.prepare w.store "select * from regex where id=:id").2 = none) :
    getRegexById D id w =
      (afterQuery (D.query (D.prepare w.store "select * from regex where id=:id").1
          "select * from regex where id=:id" [("id", Value.int (int64 id))]).2,
        { store := (D.query (D.prepare w.store "select * from regex where id=:id").1
            "select * from regex where id=:id" [("id", Value.int (int64 id))]).1,
          calls := w.calls ++ [Call.PrepareNamed "select * from regex where id=:id",
            Call.StmtSelect "select * from regex where id=:id" { Regex.zero with Id := int64 id }] ++
            (match (D.query (D.prepare w.store "select * from regex where id=:id").1
                "select * from regex where id=:id" [("id", Value.int (int64 id))]).2 with
              | .error _ => []
              | .ok _ => [Call.StmtClose "select * from regex where id=:id"]),
          sent := w.sent ++
            [{ op := Op.prepare, text := "select * from regex where id=:id", params := [] },
             { op := Op.query, text := "select * from regex where id=:id",
               params := [("id", Value.int (int64 id))] }],
          logged := w.logged ++
            errLines (D.query (D.prepare w.store "select * from regex where id=:id").1
              "select * from regex where id=:id" [("id", Value.int (int64 id))]).2 }) := by
  simp only [getRegexById, PrepareNamed, namedParams_selectById, h, NamedStmt.Select, bindArgs,
    Regex.column]
  simp only [reduceIte, String.reduceEq]
  split <;> simp_all [afterQuery, errLines, World.log, NamedStmt.Close]

/-- The run of `getRegexById` when the preparation fails: the error is dropped and
the nil handle is used. -/
theorem getRegexById_run_refused {σ : Type} (D : Datastore σ) (id : Int) (w : World σ) (e : Err)
    (h : (D.prepare w.store "select * from regex where id=:id").2 = some e) :
    getRegexById D id w =
      (Outcome.panicked,
        { store := (D.prepare w.store "select * from regex where id=:id").1,
          calls := w.calls ++ [Call.PrepareNamed "select * from regex where id=:id"],
          sent := w.sent ++
            [{ op := Op.prepare, text := "select * from regex where id=:id", params := [] }],
          logged := w.logged }) := by
  simp only [getRegexById, PrepareNamed, namedParams_selectById, h]

/-! ## The reference datastore -/

theorem Store_exec_update (s : Store) (v : Regex) (now : Time) (id : Int) (h : s.fail = none) :
    Store.exec s putRegexSQL (putParams v now id) =
      ({ s with rows := s.rows.map (fun r =>
            if r.Id = int64 id then
              { r with Pattern := v.Pattern, Type_ := v.Type_, LastUpdated := now }
            else r) },
        .ok { LastInsertId := 0, RowsAffected := s.matching (int64 id) }) := by
  simp [Store.exec, h, putRegexSQL_text, putParams, paramText, paramInt, paramTime, List.lookup]

theorem Store_exec_delete (s : Store) (id : Int) (h : s.fail = none) :
    Store.exec s delRegexSQL [("id", Value.int (int64 id))] =
      ({ s with rows := s.rows.filter (fun r => !decide (r.Id = int64 id)) },
        .ok { LastInsertId := 0, RowsAffected := s.matching (int64 id) }) := by
  simp [Store.exec, h, delRegexSQL_text, paramInt, List.lookup]

theorem Store_exec_fail (s : Store) (text : String) (ps : List (String × Value)) (e : Err)
    (h : s.fail = some e) : Store.exec s text ps = (s, .error e) := by
  simp [Store.exec, h]

/-! ## The claims -/

/-- C1: for every path id and every payload that decodes into a record, the record
`putRegex` binds to the UPDATE has `Id = int64(id)` and the parameter `:id` sent to
the datastore is `int64(id)`; the id of the payload reaches neither, and two
payloads that agree on pattern and type behave alike whatever ids they carry. -/
theorem putRegex_id_from_path {σ : Type} (J : Unmarshal) (D : Datastore σ) (now : Time)
    (id : Int) (payload : String) (w : World σ) (v : Regex)
    (h : J payload Regex.zero = (v, none)) :
    (putRegex J D now id payload w).2.calls =
        w.calls ++ [Call.NamedExec putRegexSQL
          { Id := int64 id, Pattern := v.Pattern, Type_ := v.Type_, LastUpdated := now }]
    ∧ (putRegex J D now id payload w).2.sent =
        w.sent ++ [{ op := Op.exec, text := putRegexSQL,
                     params := [("pattern", Value.text v.Pattern), ("type", Value.int v.Type_),
                       ("last_updated", Value.time now), ("id", Value.int (int64 id))] }]
    ∧ ∀ (payload2 : String) (v2 : Regex), J payload2 Regex.zero = (v2, none) →
        v2.Pattern = v.Pattern → v2.Type_ = v.Type_ →
        putRegex J D now id payload2 w = putRegex J D now id payload w := by
  refine ⟨?_, ?_, ?_⟩
  · rw [putRegex_run J D now id payload w v h]
  · rw [putRegex_run J D now id payload w v h]; rfl
  · intro payload2 v2 h2 hp ht
    rw [putRegex_run J D now id payload w v h, putRegex_run J D now id payload2 w v2 h2]
    simp only [putParams, hp, ht]

/-- An instance of C1: the payload carries id 99, the path id is 5, and the record
bound to the UPDATE has id 5. -/
theorem putRegex_id_from_path_witness :
    sampleUnmarshal
        "\x7b\"id\":99,\"pattern\":\"a.*\",\"type\":2,\"lastUpdated\":\"2015-01-01T00:00:00Z\"\x7d"
        Regex.zero = ({ Id := 99, Pattern := "a.*", Type_ := 2, LastUpdated := 1420070400 }, none)
    ∧ (putRegex sampleUnmarshal refDB 77 5
        "\x7b\"id\":99,\"pattern\":\"a.*\",\"type\":2,\"lastUpdated\":\"2015-01-01T00:00:00Z\"\x7d"
        sampleWorld).2.calls =
          [Call.NamedExec putRegexSQL { Id := 5, Pattern := "a.*", Type_ := 2, LastUpdated := 77 }] :=
  ⟨by decide,
    (putRegex_id_from_path sampleUnmarshal refDB 77 5
      "\x7b\"id\":99,\"pattern\":\"a.*\",\"type\":2,\"lastUpdated\":\"2015-01-01T00:00:00Z\"\x7d"
      sampleWorld { Id := 99, Pattern := "a.*", Type_ := 2, LastUpdated := 1420070400 }
      (by decide)).1⟩

/-- C2, on the code: `postRegex` on the malformed payload consisting of an opening
brace. `json.Unmarshal` returns an error, which is logged; the handler then
executes the INSERT with the zero record, a row with the empty pattern and type 0
is added to the table, and the handler returns the result of the insert with a nil
error. -/
theorem postRegex_malformed_inserts :
    sampleUnmarshal "\x7b" Regex.zero = (Regex.zero, some "unexpected end of JSON input")
    ∧ (postRegex sampleUnmarshal refDB "\x7b" sampleWorld).1 =
        Outcome.returned (some (Reply.result { LastInsertId := 7, RowsAffected := 1 })) none
    ∧ (postRegex sampleUnmarshal refDB "\x7b" sampleWorld).2.calls =
        [Call.NamedExec "INSERT INTO regex(pattern,type) VALUES (:pattern,:type)" Regex.zero]
    ∧ (postRegex sampleUnmarshal refDB "\x7b" sampleWorld).2.store.rows =
        sampleStore.rows ++ [{ Id := 7, Pattern := "", Type_ := 0, LastUpdated := 0 }]
    ∧ (postRegex sampleUnmarshal refDB "\x7b" sampleWorld).2.logged =
        ["unexpected end of JSON input"] := by
  decide

/-- C3: for every id and every payload on which `json.Unmarshal` returns an error,
`putRegex` returns `(nil, that error)`, makes no `sqlx` call, sends nothing to the
datastore and leaves the datastore state as it was. -/
theorem putRegex_malformed {σ : Type} (J : Unmarshal) (D : Datastore σ) (now : Time)
    (id : Int) (payload : String) (w : World σ) (v : Regex) (e : Err)
    (h : J payload Regex.zero = (v, some e)) :
    (putRegex J D now id payload w).1 = Outcome.returned none (some e)
    ∧ (putRegex J D now id payload w).2.calls = w.calls
    ∧ (putRegex J D now id payload w).2.sent = w.sent
    ∧ (putRegex J D now id payload w).2.store = w.store := by
  simp [putRegex, h, World.log]

/-- An instance of C3: the payload is a lone opening brace. -/
theorem putRegex_malformed_witness :
    sampleUnmarshal "\x7b" Regex.zero = (Regex.zero, some "unexpected end of JSON input")
    ∧ (putRegex sampleUnmarshal refDB 77 5 "\x7b" sampleWorld).1 =
        Outcome.returned none (some "unexpected end of JSON input")
    ∧ (putRegex sampleUnmarshal refDB 77 5 "\x7b" sampleWorld).2.calls = sampleWorld.calls
    ∧ (putRegex sampleUnmarshal refDB 77 5 "\x7b" sampleWorld).2.sent = sampleWorld.sent
    ∧ (putRegex sampleUnmarshal refDB 77 5 "\x7b" sampleWorld).2.store = sampleWorld.store :=
  ⟨by decide, putRegex_malformed sampleUnmarshal refDB 77 5 "\x7b" sampleWorld Regex.zero
    "unexpected end of JSON input" (by decide)⟩

/-- C4, on the code: `getRegexById` on a datastore that refuses the preparation.
The error of `PrepareNamed` is neither returned nor logged; the handler goes on to
`Select` on the nil statement handle and panics. -/
theorem getRegexById_drops_prepare_error :
    (refDB.prepare refusingStore "select * from regex where id=:id").2 = some "connection refused"
    ∧ (getRegexById refDB 5 (World.init refusingStore)).1 = Outcome.panicked
    ∧ (getRegexById refDB 5 (World.init refusingStore)).1 ≠
        Outcome.returned none (some "connection refused")
    ∧ (getRegexById refDB 5 (World.init refusingStore)).2.logged = [] := by
  decide

/-- C5: the insert of `postRegex` depends only on pattern and type. For two payloads
that decode without error and agree on pattern and type, the statement sent is the
same text with the same two values, bound to `:pattern` and `:type`, which are the
only named parameters of the text; so the datastore ends in the same state and the
handler returns the same outcome, whatever id and lastUpdated the payloads carry. -/
theorem postRegex_depends_on_pattern_and_type {σ : Type} (J : Unmarshal) (D : Datastore σ)
    (payload1 payload2 : String) (w : World σ) (v1 v2 : Regex)
    (h1 : J payload1 Regex.zero = (v1, none)) (h2 : J payload2 Regex.zero = (v2, none))
    (hp : v1.Pattern = v2.Pattern) (ht : v1.Type_ = v2.Type_) :
    (postRegex J D payload1 w).2.sent =
        w.sent ++ [{ op := Op.exec, text := "INSERT INTO regex(pattern,type) VALUES (:pattern,:type)",
                     params := [("pattern", Value.text v1.Pattern), ("type", Value.int v1.Type_)] }]
    ∧ (postRegex J D payload2 w).2.sent = (postRegex J D payload1 w).2.sent
    ∧ (postRegex J D payload2 w).2.store = (postRegex J D payload1 w).2.store
    ∧ (postRegex J D payload2 w).1 = (postRegex J D payload1 w).1
    ∧ namedParams "INSERT INTO regex(pattern,type) VALUES (:pattern,:type)" =
        .ok ["pattern", "type"] := by
  rw [postRegex_run, postRegex_run, h1, h2]
  simp only [postParams, ← hp, ← ht, ← postRegexSQL_text]
  exact ⟨trivial, trivial, trivial, trivial, rfl⟩

/-- An instance of C5: one payload carries an id and a lastUpdated, the other
carries neither, and the table ends the same. -/
theorem postRegex_depends_on_pattern_and_type_witness :
    sampleUnmarshal
        "\x7b\"id\":99,\"pattern\":\"a.*\",\"type\":2,\"lastUpdated\":\"2015-01-01T00:00:00Z\"\x7d"
        Regex.zero = ({ Id := 99, Pattern := "a.*", Type_ := 2, LastUpdated := 1420070400 }, none)
    ∧ sampleUnmarshal "\x7b\"pattern\":\"a.*\",\"type\":2\x7d" Regex.zero =
        ({ Id := 0, Pattern := "a.*", Type_ := 2, LastUpdated := 0 }, none)
    ∧ (postRegex sampleUnmarshal refDB "\x7b\"pattern\":\"a.*\",\"type\":2\x7d" sampleWorld).2.store =
        (postRegex sampleUnmarshal refDB
          "\x7b\"id\":99,\"pattern\":\"a.*\",\"type\":2,\"lastUpdated\":\"2015-01-01T00:00:00Z\"\x7d"
          sampleWorld).2.store :=
  ⟨by decide, by decide,
    (postRegex_depends_on_pattern_and_type sampleUnmarshal refDB
      "\x7b\"id\":99,\"pattern\":\"a.*\",\"type\":2,\"lastUpdated\":\"2015-01-01T00:00:00Z\"\x7d"
      "\x7b\"pattern\":\"a.*\",\"type\":2\x7d" sampleWorld
      { Id := 99, Pattern := "a.*", Type_ := 2, LastUpdated := 1420070400 }
      { Id := 0, Pattern := "a.*", Type_ := 2, LastUpdated := 0 }
      (by decide) (by decide) rfl rfl).2.2.1⟩

/-- C6: for every id, every payload that decodes without error and every clock
reading `now`, the record `putRegex` binds to the UPDATE has `LastUpdated = now` and
the pattern and type of the payload; the statement sent sets the columns pattern,
type and last_updated from these values where id is the path id; and on the
reference datastore exactly these three columns of exactly the rows with that id
change. -/
theorem putRegex_update {σ : Type} (J : Unmarshal) (D : Datastore σ) (now : Time) (id : Int)
    (payload : String) (w : World σ) (v : Regex) (h : J payload Regex.zero = (v, none)) :
    (putRegex J D now id payload w).2.calls =
        w.calls ++ [Call.NamedExec
          "UPDATE regex SET pattern = :pattern,type = :type,last_updated = :last_updated WHERE id=:id"
          { Id := int64 id, Pattern := v.Pattern, Type_ := v.Type_, LastUpdated := now }]
    ∧ (putRegex J D now id payload w).2.sent =
        w.sent ++ [{ op := Op.exec,
                     text := "UPDATE regex SET pattern = :pattern,type = :type,last_updated = :last_updated WHERE id=:id",
                     params := [("pattern", Value.text v.Pattern), ("type", Value.int v.Type_),
                       ("last_updated", Value.time now), ("id", Value.int (int64 id))] }]
    ∧ ∀ s : Store, s.fail = none →
        (putRegex J refDB now id payload (World.init s)).2.store =
          { s with rows := s.rows.map (fun r =>
              if r.Id = int64 id then
                { Id := r.Id, Pattern := v.Pattern, Type_ := v.Type_, LastUpdated := now }
              else r) } := by
  refine ⟨?_, ?_, ?_⟩
  · rw [putRegex_run J D now id payload w v h, ← putRegexSQL_text]
  · rw [putRegex_run J D now id payload w v h, ← putRegexSQL_text]; rfl
  · intro s hs
    rw [putRegex_run J refDB now id payload _ v h]
    show (Store.exec s putRegexSQL (putParams v now id)).1 = _
    rw [Store_exec_update s v now id hs]

/-- An instance of C6: the update of row 5 at clock reading 77. -/
theorem putRegex_update_witness :
    sampleUnmarshal
        "\x7b\"id\":99,\"pattern\":\"a.*\",\"type\":2,\"lastUpdated\":\"2015-01-01T00:00:00Z\"\x7d"
        Regex.zero = ({ Id := 99, Pattern := "a.*", Type_ := 2, LastUpdated := 1420070400 }, none)
    ∧ (putRegex sampleUnmarshal refDB 77 5
        "\x7b\"id\":99,\"pattern\":\"a.*\",\"type\":2,\"lastUpdated\":\"2015-01-01T00:00:00Z\"\x7d"
        sampleWorld).2.calls =
          sampleWorld.calls ++ [Call.NamedExec
            "UPDATE regex SET pattern = :pattern,type = :type,last_updated = :last_updated WHERE id=:id"
            { Id := int64 5, Pattern := "a.*", Type_ := 2, LastUpdated := 77 }] :=
  ⟨by decide,
    (putRegex_update sampleUnmarshal refDB 77 5
      "\x7b\"id\":99,\"pattern\":\"a.*\",\"type\":2,\"lastUpdated\":\"2015-01-01T00:00:00Z\"\x7d"
      sampleWorld { Id := 99, Pattern := "a.*", Type_ := 2, LastUpdated := 1420070400 }
      (by decide)).1⟩

/-- C7: the text of every write is a constant. On every payload `postRegex` sends
exactly one statement, whose text is the INSERT constant; `putRegex` sends the
UPDATE constant, once when the payload decodes and not at all otherwise; `delRegex`
sends the DELETE constant once. The payload and the id occur only among the values
bound to the named parameters. -/
theorem write_text_is_constant {σ : Type} (J : Unmarshal) (D : Datastore σ) (now : Time)
    (id : Int) (payload : String) (w : World σ) :
    (postRegex J D payload w).2.sent =
        w.sent ++ [{ op := Op.exec,
                     text := "INSERT INTO regex(pattern,type) VALUES (:pattern,:type)",
                     params := [("pattern", Value.text (J payload Regex.zero).1.Pattern),
                       ("type", Value.int (J payload Regex.zero).1.Type_)] }]
    ∧ (putRegex J D now id payload w).2.sent =
        w.sent ++
          (if (J payload Regex.zero).2 = none then
            [{ op := Op.exec,
               text := "UPDATE regex SET pattern = :pattern,type = :type,last_updated = :last_updated WHERE id=:id",
               params := [("pattern", Value.text (J payload Regex.zero).1.Pattern),
                 ("type", Value.int (J payload Regex.zero).1.Type_),
                 ("last_updated", Value.time now), ("id", Value.int (int64 id))] }]
          else [])
    ∧ (delRegex D id w).2.sent =
        w.sent ++ [{ op := Op.exec, text := "DELETE FROM regex WHERE id=:id",
                     params := [("id", Value.int (int64 id))] }] := by
  refine ⟨?_, ?_, ?_⟩
  · rw [postRegex_run, ← postRegexSQL_text]; rfl
  · cases hu : (J payload Regex.zero).2 with
    | none =>
      rw [putRegex_run J D now id payload w (J payload Regex.zero).1 (by rw [← hu]),
        ← putRegexSQL_text]
      rfl
    | some e =>
      rw [putRegex_run_error J D now id payload w (J payload Regex.zero).1 e (by rw [← hu])]
      simp [World.log]
  · rw [delRegex_run]; rfl

/-- C8: an error of the datastore call that executes the statement is returned
unchanged, as `(nil, e)`, after exactly one such call, by each of `getRegexById`,
`getRegexs`, `postRegex`, `putRegex` and `delRegex`; and a handler that returns a
non-nil result returns a nil error. -/
theorem exec_error_surfaces_once {σ : Type} (J : Unmarshal) (D : Datastore σ) (now : Time)
    (id : Int) (payload : String) (w : World σ) (e : Err) :
    ((D.prepare w.store "select * from regex where id=:id").2 = none →
      (D.query (D.prepare w.store "select * from regex where id=:id").1
        "select * from regex where id=:id" [("id", Value.int (int64 id))]).2 = .error e →
      (getRegexById D id w).1 = Outcome.returned none (some e)
      ∧ (getRegexById D id w).2.calls =
          w.calls ++ [Call.PrepareNamed "select * from regex where id=:id",
            Call.StmtSelect "select * from regex where id=:id" { Regex.zero with Id := int64 id }])
    ∧ ((D.query w.store "select * from regex" []).2 = .error e →
      (getRegexs D w).1 = Outcome.returned none (some e)
      ∧ (getRegexs D w).2.calls = w.calls ++ [Call.Select "select * from regex"])
    ∧ ((D.exec w.store postRegexSQL (postParams (J payload Regex.zero).1)).2 = .error e →
      (postRegex J D payload w).1 = Outcome.returned none (some e)
      ∧ (postRegex J D payload w).2.calls =
          w.calls ++ [Call.NamedExec postRegexSQL (J payload Regex.zero).1])
    ∧ ((J payload Regex.zero).2 = none →
      (D.exec w.store putRegexSQL (putParams (J payload Regex.zero).1 now id)).2 = .error e →
      (putRegex J D now id payload w).1 = Outcome.returned none (some e)
      ∧ (putRegex J D now id payload w).2.calls =
          w.calls ++ [Call.NamedExec putRegexSQL
            { Id := int64 id, Pattern := (J payload Regex.zero).1.Pattern,
              Type_ := (J payload Regex.zero).1.Type_, LastUpdated := now }])
    ∧ ((D.exec w.store delRegexSQL [("id", Value.int (int64 id))]).2 = .error e →
      (delRegex D id w).1 = Outcome.returned none (some e)
      ∧ (delRegex D id w).2.calls =
          w.calls ++ [Call.NamedExec delRegexSQL { Regex.zero with Id := int64 id }])
    ∧ (∀ (r : Reply) (err : Option Err),
        ((getRegexById D id w).1 = Outcome.returned (some r) err → err = none)
        ∧ ((getRegexs D w).1 = Outcome.returned (some r) err → err = none)
        ∧ ((postRegex J D payload w).1 = Outcome.returned (some r) err → err = none)
        ∧ ((putRegex J D now id payload w).1 = Outcome.returned (some r) err → err = none)
        ∧ ((delRegex D id w).1 = Outcome.returned (some r) err → err = none)) := by
  have hx : ∀ (x : Except Err Result) (r : Reply) (err : Option Err),
      afterExec x = Outcome.returned (some r) err → err = none := by
    intro x r err hx
    cases x <;> simp [afterExec] at hx
    exact hx.2.symm
  have hq : ∀ (x : Except Err (List Regex)) (r : Reply) (err : Option Err),
      afterQuery x = Outcome.returned (some r) err → err = none := by
    intro x r err hx
    cases x <;> simp [afterQuery] at hx
    exact hx.2.symm
  refine ⟨?_, ?_, ?_, ?_, ?_, ?_⟩
  · intro hp he
    rw [getRegexById_run D id w hp, he]
    simp [afterQuery]
  · intro he
    rw [getRegexs_run, he]
    simp [afterQuery]
  · intro he
    rw [postRegex_run, he]
    simp [afterExec]
  · intro hu he
    rw [putRegex_run J D now id payload w (J payload Regex.zero).1 (by rw [← hu]), he]
    simp [afterExec]
  · intro he
    rw [delRegex_run, he]
    simp [afterExec]
  · intro r err
    refine ⟨?_, ?_, ?_, ?_, ?_⟩
    · cases hp : (D.prepare w.store "select * from regex where id=:id").2 with
      | none => rw [getRegexById_run D id w hp]; exact hq _ r err
      | some e2 => rw [getRegexById_run_refused D id w e2 hp]; intro h; cases h
    · rw [getRegexs_run]; exact hq _ r err
    · rw [postRegex_run]; exact hx _ r err
    · cases hu : (J payload Regex.zero).2 with
      | none =>
        rw [putRegex_run J D now id payload w (J payload Regex.zero).1 (by rw [← hu])]
        exact hx _ r err
      | some e2 =>
        rw [putRegex_run_error J D now id payload w (J payload Regex.zero).1 e2 (by rw [← hu])]
        intro h; cases h
    · rw [delRegex_run]; exact hx _ r err

/-- An instance of C8: every handler on a datastore that has lost its connection. -/
theorem exec_error_surfaces_once_witness :
    (getRegexById refDB 5 failingWorld).1 = Outcome.returned none (some "connection lost")
    ∧ (getRegexs refDB failingWorld).1 = Outcome.returned none (some "connection lost")
    ∧ (postRegex sampleUnmarshal refDB "\x7b\"pattern\":\"a.*\",\"type\":2\x7d" failingWorld).1 =
        Outcome.returned none (some "connection lost")
    ∧ (putRegex sampleUnmarshal refDB 77 5 "\x7b\"pattern\":\"a.*\",\"type\":2\x7d" failingWorld).1 =
        Outcome.returned none (some "connection lost")
    ∧ (delRegex refDB 5 failingWorld).1 = Outcome.returned none (some "connection lost") :=
  have h := exec_error_surfaces_once sampleUnmarshal refDB 77 5
    "\x7b\"pattern\":\"a.*\",\"type\":2\x7d" failingWorld "connection lost"
  ⟨(h.1 rfl rfl).1, (h.2.1 rfl).1, (h.2.2.1 rfl).1, (h.2.2.2.1 rfl rfl).1,
    (h.2.2.2.2.1 rfl).1⟩

/-- C9: `delRegex` makes no existence check. For every id its only `sqlx` call is
one `NamedExec` of the DELETE by id, with no read before it, and whenever the
datastore executes it without error the handler returns that result with a nil
error. On the reference datastore, deleting an id that no row has succeeds with
zero rows affected and leaves the table as it was, and a second delete of the same
id changes nothing. -/
theorem delRegex_no_existence_check {σ : Type} (D : Datastore σ) (id : Int) (w : World σ) :
    (delRegex D id w).2.calls =
        w.calls ++ [Call.NamedExec "DELETE FROM regex WHERE id=:id"
          { Id := int64 id, Pattern := "", Type_ := 0, LastUpdated := 0 }]
    ∧ (delRegex D id w).2.sent =
        w.sent ++ [{ op := Op.exec, text := "DELETE FROM regex WHERE id=:id",
                     params := [("id", Value.int (int64 id))] }]
    ∧ (∀ r : Result,
        (D.exec w.store "DELETE FROM regex WHERE id=:id" [("id", Value.int (int64 id))]).2 = .ok r →
        (delRegex D id w).1 = Outcome.returned (some (Reply.result r)) none)
    ∧ (∀ s : Store, s.fail = none → (∀ r ∈ s.rows, r.Id ≠ int64 id) →
        (delRegex refDB id (World.init s)).1 =
            Outcome.returned (some (Reply.result { LastInsertId := 0, RowsAffected := 0 })) none
        ∧ (delRegex refDB id (World.init s)).2.store = s)
    ∧ (∀ u : World Store,
        (delRegex refDB id (delRegex refDB id u).2).2.store = (delRegex refDB id u).2.store) := by
  refine ⟨?_, ?_, ?_, ?_, ?_⟩
  · rw [delRegex_run]; rfl
  · rw [delRegex_run]; rfl
  · intro r hr
    rw [delRegex_run]
    show afterExec (D.exec w.store "DELETE FROM regex WHERE id=:id" _).2 = _
    rw [hr]; rfl
  · intro s hs hno
    rw [delRegex_run]
    show afterExec (Store.exec s delRegexSQL _).2 = _ ∧ (Store.exec s delRegexSQL _).1 = s
    rw [Store_exec_delete s id hs]
    have hf : s.rows.filter (fun r => !decide (r.Id = int64 id)) = s.rows := by
      rw [List.filter_eq_self]
      intro r hr
      simpa using hno r hr
    have hm : s.matching (int64 id) = 0 := by
      simp only [Store.matching]
      rw [List.filter_eq_nil_iff.mpr]
      · rfl
      · intro r hr
        simpa using hno r hr
    refine ⟨?_, ?_⟩
    · show afterExec (.ok { LastInsertId := 0, RowsAffected := s.matching (int64 id) }) = _
      rw [hm]; rfl
    · show ({ s with rows := s.rows.filter (fun r => !decide (r.Id = int64 id)) } : Store) = s
      rw [hf]
  · intro u
    rw [delRegex_run, delRegex_run]
    show (Store.exec (Store.exec u.store delRegexSQL _).1 delRegexSQL _).1 =
      (Store.exec u.store delRegexSQL _).1
    cases hfail : u.store.fail with
    | some e =>
      rw [Store_exec_fail u.store _ _ e hfail, Store_exec_fail u.store _ _ e hfail]
    | none =>
      have h2 : ({ u.store with
          rows := u.store.rows.filter (fun r => !decide (r.Id = int64 id)) } : Store).fail = none :=
        hfail
      rw [Store_exec_delete u.store id hfail]
      show (Store.exec { u.store with
          rows := u.store.rows.filter (fun r => !decide (r.Id = int64 id)) } delRegexSQL _).1 = _
      rw [Store_exec_delete _ id h2]
      simp [List.filter_filter]

/-- An instance of C9: the delete of id 42 on a table that has no such row. -/
theorem delRegex_no_existence_check_witness :
    (delRegex refDB 42 sampleWorld).1 =
        Outcome.returned (some (Reply.result { LastInsertId := 0, RowsAffected := 0 })) none
    ∧ (delRegex refDB 42 sampleWorld).2.store = sampleStore :=
  (delRegex_no_existence_check refDB 42 sampleWorld).2.2.2.1 sampleStore (by decide) (by decide)

end TrafficControl
